import Mathlib

/-!
Verification development for the dis-track playback orchestrator
(src/src/bot.ts).  The TypeScript core is shallowly embedded: the global
per-guild maps become explicit state records, the play-dl / ytdl / voice
collaborators become an explicit oracle record of pure functions, and the
regex link classifiers become executable substring predicates.
-/

namespace DisTrack

/-! ## String matching machinery

The source classifies links with three regexes:
  spotify       : /open\.spotify\.com/
  youtube       : /youtu\.?be|youtube\.com/   (and /youtu\.?be/ in createResource,
                  which accepts exactly the same strings since "youtube.com"
                  contains "youtube")
  yt playlist   : /youtube\.com\/.*[?&]list=/
All three are plain substring / substring-then-substring tests, embedded here
over character lists. -/

/-- Does the pattern (second argument) occur as a prefix of the first list. -/
def matchesAt : List Char → List Char → Bool
  | _, [] => true
  | [], _ :: _ => false
  | c :: s, p :: ps => c == p && matchesAt s ps

/-- Does the pattern (second argument) occur anywhere inside the first list. -/
def hasSub : List Char → List Char → Bool
  | [], pat => matchesAt [] pat
  | c :: s, pat => matchesAt (c :: s) pat || hasSub s pat

/-- The suffix of the first list strictly after the first occurrence of the
pattern, or none when the pattern does not occur. -/
def afterSub : List Char → List Char → Option (List Char)
  | [], pat => if pat.isEmpty then some [] else none
  | c :: s, pat =>
    if matchesAt (c :: s) pat then some ((c :: s).drop pat.length) else afterSub s pat

/-- Substring occurrence on strings. -/
def occursSubstr (s pat : String) : Bool := hasSub s.toList pat.toList

/-- Embeds the /open\.spotify\.com/ test. -/
def spotifyLink (url : String) : Bool := occursSubstr url "open.spotify.com"

/-- Embeds the /youtu\.?be|youtube\.com/ test: the first alternative matches
"youtube" or "youtu.be", and the second is subsumed by "youtube". -/
def ytLink (url : String) : Bool := occursSubstr url "youtube" || occursSubstr url "youtu.be"

/-- Embeds the /youtube\.com\/.*[?&]list=/ test: some occurrence of
"youtube.com/" followed later by "?list=" or "&list=".  Searching after the
first occurrence is equivalent, since anything after a later occurrence is
also after the first. -/
def ytPlaylistLink (url : String) : Bool :=
  match afterSub url.toList "youtube.com/".toList with
  | some rest => hasSub rest "?list=".toList || hasSub rest "&list=".toList
  | none => false

/-- JavaScript || on strings: the left operand unless it is empty (falsy). -/
def jsOr (s alt : String) : String := if s = "" then alt else s

/-! ## Data model (interfaces from bot.ts) -/

/-- TrackMetadata from bot.ts: the mutable per-track snapshot stored in the
currentTracks map. -/
structure TrackMetadata where
  url : String
  title : String
  artist : String
  duration : String
  requester : String
  thumbnail : Option String
deriving DecidableEq, Repr

/-- QueueItem from bot.ts: one entry of a guild queue. -/
structure QueueItem where
  url : String
  requester : Option String
deriving DecidableEq, Repr

/-- CachedTrackInfo from bot.ts: value type of the trackInfoCache. -/
structure CachedTrackInfo where
  title : String
  author : String
  thumbnail : Option String
  duration : Option String
deriving DecidableEq, Repr

/-! ## External collaborator oracle

play-dl, ytdl and the voice transport are external.  Their responses are
modelled as a record of pure functions; a none result models a thrown
error/rejected promise at the corresponding call site. -/

/-- One track blob inside a Spotify playlist/album response (fields used by
the source: name, artists[0].name, url). -/
structure SpTrack where
  name : String
  artists : List String
  url : String
deriving DecidableEq, Repr

/-- A playdl.spotify response.  tracksPage models the preloaded sp.tracks
array used by resolveFirstTrack; allTracksResult models sp.all_tracks()
used by resolveTracks (none = the call throws). -/
structure SpotifyInfo where
  sptype : String
  name : String
  artists : List String
  thumbnail : Option String
  durationRaw : Option String
  tracksPage : List SpTrack
  allTracksResult : Option (List SpTrack)
deriving DecidableEq, Repr

/-- The fields of a playdl.video_basic_info response read by the source. -/
structure VideoDetails where
  title : String
  channelName : Option String
  thumb0 : Option String
  durationRaw : Option String
deriving DecidableEq, Repr

/-- The external-collaborator oracle.  playlistVideos is
playlist_info + all_videos projected to video urls; search1 is
playdl.search with limit 1 (none = throws, some [] = no hits); streamErr
gives the error message with which playdl.stream rejects, if any. -/
structure Oracle where
  playlistVideos : String → Option (List String)
  spotify : String → Option SpotifyInfo
  search1 : String → Option (List String)
  videoInfo : String → Option VideoDetails
  streamErr : String → Option String

/-- The search query template used throughout the source, with the
JavaScript access artists[0].name made explicit: none models the TypeError
thrown on an empty artists array (always caught by an enclosing try). -/
def searchQuery (name : String) (artists : List String) : Option String :=
  artists.head?.map (fun a => name ++ " " ++ a)

/-- The two-line pattern repeated at every Spotify call site of the
source: search play-dl for "name artist" with limit 1 and take the first
hit; none when the query cannot be built, the search throws, or there is
no hit. -/
def searchFirstHit (o : Oracle) (name : String) (artists : List String) : Option String :=
  match searchQuery name artists with
  | some query =>
    match o.search1 query with
    | some (u :: _) => some u
    | some [] => none
    | none => none
  | none => none

/-! ## Track resolution (bot.ts resolveFirstTrack / resolveTracks) -/

/-- resolveFirstTrack from bot.ts: quickly resolve only the first playable
track.  Every failing path inside the spotify branch falls through to the
trailing raw-spotify guard and yields none. -/
def resolveFirstTrack (o : Oracle) (url : String) : Option String :=
  if ytPlaylistLink url then
    match o.playlistVideos url with
    | some vids => vids.head?
    | none => none
  else if ytLink url then some url
  else if spotifyLink url then
    match o.spotify url with
    | some sp =>
      if sp.sptype = "track" then
        searchFirstHit o sp.name sp.artists
      else
        match sp.tracksPage.head? with
        | some ft => searchFirstHit o ft.name ft.artists
        | none => none
    | none => none
  else
    if url = "" then none else some url

/-- resolveTracks from bot.ts: resolve a link into the full ordered list of
playable references.  Spotify playlists/albums are expanded lazily to their
raw catalog urls (filter Boolean drops empty/undefined urls). -/
def resolveTracks (o : Oracle) (url : String) : List String :=
  if ytPlaylistLink url then
    match o.playlistVideos url with
    | some vids => vids
    | none => []
  else if ytLink url then [url]
  else if spotifyLink url then
    match o.spotify url with
    | some sp =>
      if sp.sptype = "track" then
        match searchFirstHit o sp.name sp.artists with
        | some u => [u]
        | none => []
      else if sp.sptype = "playlist" || sp.sptype = "album" then
        match sp.allTracksResult with
        | some all => (all.map (fun t => t.url)).filter (fun u => u ≠ "")
        | none => []
      else []
    | none => []
  else [url]

/-- createResource from bot.ts, with the stream object abstracted to the url
that is actually streamed.  The spotify branch recurses on the search hit,
so a fuel parameter bounds the recursion (the JavaScript call stack plays
that role in the source). -/
def createRes (o : Oracle) : Nat → String → Except String String
  | 0, _ => Except.error "Maximum call stack size exceeded"
  | fuel + 1, url =>
    if spotifyLink url then
      match o.spotify url with
      | some sp =>
        match searchFirstHit o sp.name sp.artists with
        | some u => createRes o fuel u
        | none =>
          Except.error "Direct Spotify streaming is not supported and no fallback was found."
      | none =>
        Except.error "Direct Spotify streaming is not supported and no fallback was found."
    else if ytLink url then
      Except.ok url
    else
      match o.streamErr url with
      | some msg => Except.error msg
      | none => Except.ok url

/-- The stream a queue entry ultimately plays, if resource creation
succeeds: the observable identity of a track. -/
def canonicalStream (o : Oracle) (fuel : Nat) (url : String) : Option String :=
  (createRes o fuel url).toOption

/-- safeCreateResource from bot.ts: reclassify any error whose message
contains 404 as RESOURCE_NOT_FOUND, re-throw others. -/
def safeCreateResource (o : Oracle) (fuel : Nat) (url : String) : Except String String :=
  match createRes o fuel url with
  | Except.ok v => Except.ok v
  | Except.error msg =>
    if occursSubstr msg "404" then Except.error "RESOURCE_NOT_FOUND" else Except.error msg

/-- The background-expansion task body spawned by processPlayRequest
(bot.ts lines 199-203): resolve all tracks, drop the head if it equals the
already-started first track, and the remainder is what gets appended. -/
def backgroundExpansion (o : Oracle) (url first : String) : List String :=
  match resolveTracks o url with
  | [] => []
  | r0 :: rtail => if r0 = first then rtail else r0 :: rtail

/-! ## Metadata cache (bot.ts getCachedTrackInfo) -/

/-- Pointwise update of a lookup map (the Map.set of the source). -/
def upd {α : Type} (m : String → α) (k : String) (v : α) : String → α :=
  fun x => if x = k then v else m x

/-- The fetch half of getCachedTrackInfo: build a CachedTrackInfo from the
spotify or video lookup, none when the lookup throws. -/
def fetchTrackInfo (o : Oracle) (url : String) : Option CachedTrackInfo :=
  if spotifyLink url then
    (o.spotify url).map fun sp =>
      { title := jsOr sp.name "Unknown"
        author := String.intercalate ", " sp.artists
        thumbnail := sp.thumbnail
        duration := sp.durationRaw }
  else
    (o.videoInfo url).map fun vd =>
      { title := jsOr vd.title "Unknown"
        author := jsOr (vd.channelName.getD "") "Unknown"
        thumbnail := vd.thumb0
        duration := vd.durationRaw }

/-- getCachedTrackInfo from bot.ts.  Returns the info, the updated cache and
whether an external lookup was performed.  The catch branch stores the
degraded fallback with title = url and empty author. -/
def getCachedTrackInfo (o : Oracle) (cache : String → Option CachedTrackInfo)
    (url : String) : CachedTrackInfo × (String → Option CachedTrackInfo) × Bool :=
  match cache url with
  | some c => (c, cache, false)
  | none =>
    match fetchTrackInfo o url with
    | some info => (info, upd cache url (some info), true)
    | none =>
      let info : CachedTrackInfo := { title := url, author := "", thumbnail := none, duration := none }
      (info, upd cache url (some info), true)

/-! ## Queue advance (bot.ts playFromQueue) -/

/-- The consecutive-failure counter update performed in the catch block of
the playFromQueue scan: RESOURCE_NOT_FOUND resets the counter, any other
error increments it, and on reaching maxRetries it is reset and the scan
continues. -/
def retryStep (maxRetries retry : Nat) (msg : String) : Nat :=
  if msg = "RESOURCE_NOT_FOUND" then 0
  else if retry + 1 ≥ maxRetries then 0 else retry + 1

/-- The while loop of playFromQueue: shift entries off the head until one
yields a resource or the queue is exhausted.  Returns the played entry (if
any), the remaining queue, and the final retry counter. -/
def playLoop (o : Oracle) (fuel : Nat) : List QueueItem → Nat → Option QueueItem × List QueueItem × Nat
  | [], r => (none, [], r)
  | item :: rest, r =>
    match safeCreateResource o fuel item.url with
    | Except.ok _ => (some item, rest, r)
    | Except.error msg => playLoop o fuel rest (retryStep 3 r msg)

/-- Session states of the spec state machine (section 4.2). -/
inductive SessionStatus where
  | Idle
  | Loading
  | Playing
  | Paused
deriving DecidableEq, Repr

/-- The tenant-visible result of one playFromQueue invocation. -/
structure AdvanceResult where
  status : SessionStatus
  currentTrack : Option TrackMetadata
  queue : List QueueItem
  stoppedViewShown : Bool
  inactivityArmed : Bool
deriving DecidableEq, Repr

/-- The placeholder TrackMetadata installed by playFromQueue (bot.ts lines
442-449) before the asynchronous metadata fetch resolves. -/
def placeholderPlayMeta (item : QueueItem) : TrackMetadata :=
  { url := item.url
    title := "Loading..."
    artist := "Loading..."
    duration := "Loading..."
    requester := item.requester.getD "Unknown"
    thumbnail := some "https://cdn.discordapp.com/avatars/1371932098851639357/e5f72d929c24d25c4153d11f7e06c766.webp?size=1024&format=webp&width=1024&height=1024" }

/-- playFromQueue from bot.ts, projected to the tenant session it leaves
behind: empty queue at entry or exhaustion both perform the stopped-view
plus inactivity teardown; the first entry whose resource creation succeeds
is installed as current track and played. -/
def playFromQueue (o : Oracle) (fuel : Nat) (q : List QueueItem) : AdvanceResult :=
  if q.isEmpty then
    { status := SessionStatus.Idle, currentTrack := none, queue := []
      stoppedViewShown := true, inactivityArmed := true }
  else
    match playLoop o fuel q 0 with
    | (some item, rest, _) =>
      { status := SessionStatus.Playing, currentTrack := some (placeholderPlayMeta item), queue := rest
        stoppedViewShown := false, inactivityArmed := false }
    | (none, rest, _) =>
      { status := SessionStatus.Idle, currentTrack := none, queue := rest
        stoppedViewShown := true, inactivityArmed := true }

/-! ## Metadata object heap (bot.ts loadTrackMetadata)

loadTrackMetadata mutates in place the very TrackMetadata object captured
when its fetch was started; each track start allocates a fresh object.
JavaScript object identity is embedded as a heap of numbered cells. -/

/-- A heap of TrackMetadata objects with a fresh-allocation counter. -/
structure MetaHeap where
  store : List (Nat × TrackMetadata)
  nextId : Nat
deriving DecidableEq, Repr

/-- Allocate the fresh metadata object for a newly started track and make
it the current one (currentTracks.set in the source).  Returns the heap
and the new object id. -/
def startTrack (h : MetaHeap) (md : TrackMetadata) : MetaHeap × Nat :=
  ({ store := (h.nextId, md) :: h.store, nextId := h.nextId + 1 }, h.nextId)

/-- The in-place field updates a resolved metadata fetch performs
(bot.ts lines 488-491). -/
def updateMeta (md : TrackMetadata) (info : CachedTrackInfo) : TrackMetadata :=
  { md with
    title := info.title
    artist := info.author
    thumbnail := match info.thumbnail with | some t => some t | none => md.thumbnail
    duration := match info.duration with | some d => d | none => md.duration }

/-- Deliver a (possibly late) metadata fetch result to the object it was
started for: only the cell with the captured id is written. -/
def applyFetchResult (h : MetaHeap) (objId : Nat) (info : CachedTrackInfo) : MetaHeap :=
  { h with store := h.store.map (fun p => if p.1 = objId then (p.1, updateMeta p.2 info) else p) }

/-- Read one object of the heap. -/
def lookupMeta (h : MetaHeap) (objId : Nat) : Option TrackMetadata :=
  (h.store.find? (fun p => p.1 == objId)).map Prod.snd

/-! ## Global per-guild state (the module-level maps of bot.ts) -/

/-- AudioPlayerStatus values of the voice library that the source branches
on (Buffering and AutoPaused exist but are never tested by the source). -/
inductive AudioStatus where
  | idle
  | buffering
  | playing
  | paused
  | autopaused
deriving DecidableEq, Repr

/-- The state of one guild audio player. -/
structure PlayerSt where
  status : AudioStatus
deriving DecidableEq, Repr

/-- A live voice connection (getVoiceConnections registry entry);
connection.destroy removes it from the registry. -/
structure ConnSt where
  channelId : String
deriving DecidableEq, Repr

/-- The now-playing view registered for a guild; stopped records that the
stopped embed has been rendered into it. -/
structure ViewSt where
  stopped : Bool
deriving DecidableEq, Repr

/-- The module-level maps of bot.ts: queues, currentTracks, players, the
voice-connection registry, disconnectTimeouts (armed flag) and
nowPlayingMessages (view registry). -/
structure BotState where
  queues : String → Option (List QueueItem)
  currentTracks : String → Option TrackMetadata
  players : String → Option PlayerSt
  connections : String → Option ConnSt
  timers : String → Bool
  views : String → Option ViewSt

/-- updateEmbedToStopped from bot.ts: always force-clear the current track;
render the stopped embed when a view is registered. -/
def updateEmbedToStopped (g : String) (s : BotState) : BotState :=
  let s1 := { s with currentTracks := upd s.currentTracks g none }
  match s1.views g with
  | none => s1
  | some _ => { s1 with views := upd s1.views g (some { stopped := true }) }

/-- checkInactivity from bot.ts: (re)arm the single inactivity timer of the
guild (an existing timer is replaced). -/
def armTimer (g : String) (s : BotState) : BotState :=
  { s with timers := upd s.timers g true }

/-- cancelInactivityCheck from bot.ts. -/
def cancelTimer (g : String) (s : BotState) : BotState :=
  { s with timers := upd s.timers g false }

/-- Set the status of the guild player. -/
def setPlayerStatus (g : String) (st : AudioStatus) (s : BotState) : BotState :=
  { s with players := upd s.players g (some { status := st }) }

/-- The part of playFromQueue that runs before its first await: an empty or
missing queue performs the stopped-view and inactivity teardown
synchronously, otherwise the head entry is shifted off and the rest of the
work is suspended. -/
def playFromQueueSyncPart (g : String) (s : BotState) : BotState :=
  match s.queues g with
  | none => armTimer g (updateEmbedToStopped g s)
  | some [] => armTimer g (updateEmbedToStopped g s)
  | some (_ :: rest) => { s with queues := upd s.queues g (some rest) }

/-- The synchronous effect of the AudioPlayerStatus.Idle listener installed
by getPlayer (bot.ts lines 119-128): when a connection is registered, run
the synchronous part of playFromQueue and re-arm the inactivity timer if
the queue is then empty. -/
def onPlayerIdleSync (g : String) (s : BotState) : BotState :=
  match s.connections g with
  | none => s
  | some _ =>
    let s1 := playFromQueueSyncPart g s
    match s1.queues g with
    | some (_ :: _) => s1
    | _ => armTimer g s1

/-- player.stop as the source observes it: a transition to idle fires the
Idle listener synchronously; stopping an already idle player does nothing. -/
def playerStop (g : String) (s : BotState) : BotState :=
  match s.players g with
  | none => s
  | some p =>
    if p.status = AudioStatus.idle then s
    else onPlayerIdleSync g (setPlayerStatus g AudioStatus.idle s)

/-- pausePlayback from bot.ts. -/
def pausePlayback (g : String) (s : BotState) : Bool × BotState :=
  match s.players g with
  | some p =>
    if p.status = AudioStatus.playing then
      (true, { s with players := upd s.players g (some { status := AudioStatus.paused }) })
    else (false, s)
  | none => (false, s)

/-- resumePlayback from bot.ts. -/
def resumePlayback (g : String) (s : BotState) : Bool × BotState :=
  match s.players g with
  | some p =>
    if p.status = AudioStatus.paused then
      (true, { s with players := upd s.players g (some { status := AudioStatus.playing }) })
    else (false, s)
  | none => (false, s)

/-- skipTrack from bot.ts: guarded player.stop. -/
def skipTrack (g : String) (s : BotState) : Bool × BotState :=
  match s.players g with
  | some p =>
    if p.status = AudioStatus.idle then (false, s)
    else (true, playerStop g s)
  | none => (false, s)

/-- stopPlayback from bot.ts: only when both a registered connection and a
player exist, clear the queue, stop the player, destroy the connection
(removing it from the registry) and render the stopped view. -/
def stopPlayback (g : String) (s : BotState) : Bool × BotState :=
  match s.connections g, s.players g with
  | some _, some _ =>
    let s1 := { s with queues := upd s.queues g (some []) }
    let s2 := playerStop g s1
    let s3 := { s2 with connections := upd s2.connections g none }
    (true, updateEmbedToStopped g s3)
  | _, _ => (false, s)

/-- The queue append used by the play request paths: create the guild queue
lazily, then push at the tail. -/
def pushToQueue (g : String) (items : List QueueItem) (s : BotState) : BotState :=
  let q := (s.queues g).getD []
  { s with queues := upd s.queues g (some (q ++ items)) }

/-- The clearqueue command body: queues.set(gid, []). -/
def clearQueue (g : String) (s : BotState) : BotState :=
  { s with queues := upd s.queues g (some []) }

/-- The body of the inactivity timeout callback (bot.ts lines 741-750):
destroy the connection, clear the queue, drop the timer and render the
stopped view (which also force-clears the current track). -/
def fireInactivity (g : String) (s : BotState) : BotState :=
  let s1 := { s with connections := upd s.connections g none }
  let s2 := { s1 with queues := upd s1.queues g (some []) }
  let s3 := { s2 with timers := upd s2.timers g false }
  updateEmbedToStopped g s3

/-- The per-tenant projection of the global state used by the isolation
claim: two states agree at a guild when every per-guild map does. -/
def agreesAt (g : String) (s t : BotState) : Prop :=
  t.queues g = s.queues g ∧
  t.currentTracks g = s.currentTracks g ∧
  t.players g = s.players g ∧
  t.connections g = s.connections g ∧
  t.timers g = s.timers g ∧
  t.views g = s.views g

/-! ## processPlayRequest (bot.ts lines 150-252), synchronous part -/

/-- The caller-visible outcome of one processPlayRequest invocation.  The
raised constructors model rejections that propagate out of the function
(no try/catch around the playable-first-track branch). -/
inductive PlayOutcome where
  | unresolvable
  | joinFail
  | addedList (n : Nat)
  | nowPlaying (url : String)
  | added
  | raisedJoinTimeout
  | raisedError (msg : String)
deriving DecidableEq, Repr

/-- What processPlayRequest has done by the time it returns (or rejects):
the tenant queue at that point, whether the background-expansion task was
spawned, whether void playFromQueue was invoked, and which track playback
was started on. -/
structure PlayReqResult where
  outcome : PlayOutcome
  queue : List QueueItem
  expansionSpawned : Bool
  advanceSpawned : Bool
  started : Option String
deriving DecidableEq, Repr

/-- processPlayRequest from bot.ts, synchronous flow for one guild.
hasConn reflects the subscriber-scan connection lookup, joinReady the
outcome of the bounded entersState wait on a newly created connection, and
playerIdle whether player.state.status is Idle.  In the unplayable-first
branch the resolved tracks are pushed before the connection attempt; in
the playable-first branch the background expansion task is spawned before
the connection attempt and its appends happen only after return. -/
def processPlayRequest (o : Oracle) (fuel : Nat) (url requester : String)
    (hasConn joinReady playerIdle : Bool) (q : List QueueItem) : PlayReqResult :=
  match resolveFirstTrack o url with
  | none =>
    let playable := resolveTracks o url
    if playable.length = 0 then
      { outcome := PlayOutcome.unresolvable, queue := q
        expansionSpawned := false, advanceSpawned := false, started := none }
    else
      let q1 := q ++ playable.map (fun u => { url := u, requester := some requester })
      if hasConn then
        { outcome := PlayOutcome.addedList playable.length, queue := q1
          expansionSpawned := false, advanceSpawned := true, started := none }
      else if joinReady then
        { outcome := PlayOutcome.addedList playable.length, queue := q1
          expansionSpawned := false, advanceSpawned := true, started := none }
      else
        { outcome := PlayOutcome.joinFail, queue := q1
          expansionSpawned := false, advanceSpawned := false, started := none }
  | some first =>
    if playerIdle || !hasConn then
      if !hasConn && !joinReady then
        { outcome := PlayOutcome.raisedJoinTimeout, queue := q
          expansionSpawned := true, advanceSpawned := false, started := none }
      else
        match createRes o fuel first with
        | Except.error msg =>
          { outcome := PlayOutcome.raisedError msg, queue := q
            expansionSpawned := true, advanceSpawned := false, started := none }
        | Except.ok _ =>
          { outcome := PlayOutcome.nowPlaying first, queue := q
            expansionSpawned := true, advanceSpawned := false, started := some first }
    else
      { outcome := PlayOutcome.added, queue := q ++ [{ url := first, requester := some requester }]
        expansionSpawned := true, advanceSpawned := false, started := none }

/-! ## Concrete fixtures for counterexamples and witnesses -/

/-- An oracle on which every external call fails or finds nothing; plain
non-catalog urls still stream (streamErr none). -/
def oAllOk : Oracle :=
  { playlistVideos := fun _ => none
    spotify := fun _ => none
    search1 := fun _ => none
    videoInfo := fun _ => none
    streamErr := fun _ => none }

/-- An oracle on which every stream attempt rejects with a 404 message. -/
def oFail : Oracle :=
  { playlistVideos := fun _ => none
    spotify := fun _ => none
    search1 := fun _ => none
    videoInfo := fun _ => none
    streamErr := fun _ => some "Status code: 404" }

/-- A Spotify playlist link. -/
def uPlaylistC1 : String := "https://open.spotify.com/playlist/P1"

/-- The raw catalog url of the first playlist member. -/
def uCatalogC1 : String := "https://open.spotify.com/track/T1"

/-- The search hit both the member and the playlist head resolve to. -/
def uTubeC1 : String := "https://youtube.com/watch?v=abc"

/-- The first member blob of the playlist. -/
def blobC1 : SpTrack := { name := "Song", artists := ["Artist"], url := uCatalogC1 }

/-- Oracle of a one-member Spotify playlist whose member is searchable. -/
def oC1 : Oracle :=
  { playlistVideos := fun _ => none
    spotify := fun u =>
      if u = uPlaylistC1 then
        some { sptype := "playlist", name := "MyList", artists := [], thumbnail := none
               durationRaw := none, tracksPage := [blobC1], allTracksResult := some [blobC1] }
      else if u = uCatalogC1 then
        some { sptype := "track", name := "Song", artists := ["Artist"], thumbnail := none
               durationRaw := none, tracksPage := [], allTracksResult := none }
      else none
    search1 := fun qy => if qy = "Song Artist" then some [uTubeC1] else none
    videoInfo := fun _ => none
    streamErr := fun _ => none }

/-- A Spotify playlist link whose first member has no search hit. -/
def uPlaylistC4 : String := "https://open.spotify.com/playlist/P4"

/-- The raw catalog url of that playlist member. -/
def uCatalogC4 : String := "https://open.spotify.com/track/T4"

/-- The member blob of the second playlist. -/
def blobC4 : SpTrack := { name := "Rare", artists := ["Band"], url := uCatalogC4 }

/-- Oracle of a Spotify playlist whose first member search finds no hit, so
resolveFirstTrack fails while resolveTracks still returns the member. -/
def oC4 : Oracle :=
  { playlistVideos := fun _ => none
    spotify := fun u =>
      if u = uPlaylistC4 then
        some { sptype := "playlist", name := "RareList", artists := [], thumbnail := none
               durationRaw := none, tracksPage := [blobC4], allTracksResult := some [blobC4] }
      else none
    search1 := fun qy => if qy = "Rare Band" then some [] else none
    videoInfo := fun _ => none
    streamErr := fun _ => none }

/-- A sample queue entry with a plain streamable url. -/
def itemA : QueueItem := { url := "trackA", requester := some "alice" }

/-- A second sample queue entry. -/
def itemB : QueueItem := { url := "trackB", requester := some "bob" }

/-- A third sample queue entry. -/
def itemC : QueueItem := { url := "trackC", requester := none }

/-- A guild id. -/
def gA : String := "guild-a"

/-- Another guild id. -/
def gB : String := "guild-b"

/-- A state in which guild gA has a playing player, a connection, a queue
entry, a current track and a registered view; gB has nothing. -/
def sC : BotState :=
  { queues := fun g => if g = gA then some [itemA] else none
    currentTracks := fun g => if g = gA then some (placeholderPlayMeta itemA) else none
    players := fun g => if g = gA then some { status := AudioStatus.playing } else none
    connections := fun g => if g = gA then some { channelId := "vc1" } else none
    timers := fun _ => false
    views := fun g => if g = gA then some { stopped := false } else none }

/-- A state in which guild gA is idle with an empty queue, a live
connection, an armed inactivity timer and a registered view. -/
def sIdleArmed : BotState :=
  { queues := fun g => if g = gA then some [] else none
    currentTracks := fun _ => none
    players := fun g => if g = gA then some { status := AudioStatus.idle } else none
    connections := fun g => if g = gA then some { channelId := "vc1" } else none
    timers := fun g => if g = gA then true else false
    views := fun g => if g = gA then some { stopped := false } else none }

/-- A one-object heap whose single metadata object has id 0. -/
def heap0 : MetaHeap := { store := [(0, placeholderPlayMeta itemA)], nextId := 1 }

/-- A concrete metadata fetch result. -/
def info0 : CachedTrackInfo := { title := "T", author := "A", thumbnail := none, duration := none }

/-! ## Helper lemmas about the playFromQueue scan -/

/-- A successfully played entry came from the queue and its resource
creation succeeded. -/
theorem playLoop_play_sound (o : Oracle) (fuel : Nat) :
    ∀ (q : List QueueItem) (r : Nat) (item : QueueItem) (rest : List QueueItem) (r2 : Nat),
      playLoop o fuel q r = (some item, rest, r2) →
      item ∈ q ∧ ∃ v, safeCreateResource o fuel item.url = Except.ok v := by
  intro q
  induction q with
  | nil => intro r item rest r2 h; simp [playLoop] at h
  | cons hd tl ih =>
    intro r item rest r2 h
    unfold playLoop at h
    cases hcr : safeCreateResource o fuel hd.url with
    | ok v =>
      rw [hcr] at h
      simp only [Prod.mk.injEq, Option.some.injEq] at h
      refine ⟨?_, v, ?_⟩
      · rw [← h.1]; exact List.mem_cons_self hd tl
      · rw [← h.1]; exact hcr
    | error msg =>
      rw [hcr] at h
      obtain ⟨hmem, hok⟩ := ih (retryStep 3 r msg) item rest r2 h
      exact ⟨List.mem_cons_of_mem hd hmem, hok⟩

/-- The scan only pops from the head: the remaining queue is always a
drop of the input queue, so no entry is appended, re-enqueued or
reordered by playFromQueue. -/
theorem playLoop_queue_drop (o : Oracle) (fuel : Nat) :
    ∀ (q : List QueueItem) (r : Nat), ∃ k, (playLoop o fuel q r).2.1 = q.drop k := by
  intro q
  induction q with
  | nil => intro r; exact ⟨0, rfl⟩
  | cons hd tl ih =>
    intro r
    unfold playLoop
    cases hcr : safeCreateResource o fuel hd.url with
    | ok v => exact ⟨1, rfl⟩
    | error msg =>
      obtain ⟨k, hk⟩ := ih (retryStep 3 r msg)
      exact ⟨k + 1, hk⟩

/-- When no entry of the queue is playable the scan consumes the whole
queue rather than aborting early. -/
theorem playLoop_exhausts (o : Oracle) (fuel : Nat) :
    ∀ (q : List QueueItem) (r : Nat),
      (playLoop o fuel q r).1 = none → (playLoop o fuel q r).2.1 = [] := by
  intro q
  induction q with
  | nil => intro r _; rfl
  | cons hd tl ih =>
    intro r h
    unfold playLoop at h ⊢
    cases hcr : safeCreateResource o fuel hd.url with
    | ok v => rw [hcr] at h; simp at h
    | error msg => rw [hcr] at h; exact ih (retryStep 3 r msg) h

/-! ## Claim theorems -/

/-- Claim C2: every invocation of advanceQueue (playFromQueue) terminates
with the session either Playing (some queue entry whose resource creation
succeeded is current) or Idle with the empty-queue teardown applied
(current track cleared, stopped view shown, inactivity monitor armed); it
is never left in Loading, including when every entry fails resource
creation. -/
theorem advanceQueue_terminal (o : Oracle) (fuel : Nat) (q : List QueueItem) :
    (playFromQueue o fuel q).status ≠ SessionStatus.Loading ∧
    ((∃ item, item ∈ q ∧ (∃ v, safeCreateResource o fuel item.url = Except.ok v) ∧
        (playFromQueue o fuel q).status = SessionStatus.Playing ∧
        (playFromQueue o fuel q).currentTrack = some (placeholderPlayMeta item)) ∨
      ((playFromQueue o fuel q).status = SessionStatus.Idle ∧
        (playFromQueue o fuel q).currentTrack = none ∧
        (playFromQueue o fuel q).stoppedViewShown = true ∧
        (playFromQueue o fuel q).inactivityArmed = true)) := by
  cases hq : q.isEmpty with
  | true => simp [playFromQueue, hq]
  | false =>
    rcases hpl : playLoop o fuel q 0 with ⟨played, rest, r2⟩
    cases played with
    | none => simp [playFromQueue, hq, hpl]
    | some item =>
      obtain ⟨hmem, hok⟩ := playLoop_play_sound o fuel q 0 item rest r2 hpl
      refine ⟨by simp [playFromQueue, hq, hpl], Or.inl ⟨item, hmem, hok, ?_, ?_⟩⟩ <;>
        simp [playFromQueue, hq, hpl]

/-- Claim C3: within one advanceQueue scan, a RESOURCE_NOT_FOUND failure
never increments the consecutive-failure counter (it resets it to 0),
every other failure increments it, reaching the threshold 3 resets it to 0,
and the scan keeps popping subsequent entries to exhaustion instead of
aborting the queue. -/
theorem retryCounter_spec :
    (∀ r : Nat, retryStep 3 r "RESOURCE_NOT_FOUND" = 0 ∧
      retryStep 3 r "RESOURCE_NOT_FOUND" ≤ r) ∧
    (∀ (r : Nat) (msg : String), msg ≠ "RESOURCE_NOT_FOUND" → r + 1 < 3 →
      retryStep 3 r msg = r + 1) ∧
    (∀ msg : String, msg ≠ "RESOURCE_NOT_FOUND" → retryStep 3 2 msg = 0) ∧
    (∀ (o : Oracle) (fuel : Nat) (q : List QueueItem) (r : Nat),
      (playLoop o fuel q r).1 = none → (playLoop o fuel q r).2.1 = []) := by
  refine ⟨?_, ?_, ?_, ?_⟩
  · intro r; simp [retryStep]
  · intro r msg hmsg hlt
    simp [retryStep, hmsg, Nat.not_le_of_lt hlt]
  · intro msg hmsg; simp [retryStep, hmsg]
  · exact playLoop_exhausts

/-- Claim C3 witness: one other-error failure takes the counter from 1 to
2, from 2 it resets to 0, a not-found failure resets 1 to 0, and an
all-failing scan consumes the whole queue. -/
theorem retryCounter_spec_witness :
    retryStep 3 1 "boom" = 2 ∧ retryStep 3 2 "boom" = 0 ∧
    retryStep 3 1 "RESOURCE_NOT_FOUND" = 0 ∧
    (playLoop oFail 4 [itemA, itemB] 0).2.1 = [] := by
  refine ⟨retryCounter_spec.2.1 1 "boom" (by decide) (by decide),
          retryCounter_spec.2.2.1 "boom" (by decide),
          (retryCounter_spec.1 1).1,
          retryCounter_spec.2.2.2 oFail 4 [itemA, itemB] 0 (by decide)⟩

/-- Claim C5: the advanceQueue scan only pops at the head (its remaining
queue is a drop of the input, so popped entries are never re-enqueued and
entries are never reordered), and with entries [a, b, c] that are all
resource-creatable, successive invocations pop a, then b, then c. -/
theorem queue_fifo_spec :
    (∀ (o : Oracle) (fuel : Nat) (q : List QueueItem), ∃ k,
      (playFromQueue o fuel q).queue = q.drop k) ∧
    (∀ (o : Oracle) (fuel : Nat) (a b c : QueueItem),
      (∃ v, safeCreateResource o fuel a.url = Except.ok v) →
      (∃ v, safeCreateResource o fuel b.url = Except.ok v) →
      (∃ v, safeCreateResource o fuel c.url = Except.ok v) →
      (playFromQueue o fuel [a, b, c]).currentTrack = some (placeholderPlayMeta a) ∧
      (playFromQueue o fuel [a, b, c]).queue = [b, c] ∧
      (playFromQueue o fuel [b, c]).currentTrack = some (placeholderPlayMeta b) ∧
      (playFromQueue o fuel [b, c]).queue = [c] ∧
      (playFromQueue o fuel [c]).currentTrack = some (placeholderPlayMeta c) ∧
      (playFromQueue o fuel [c]).queue = []) := by
  constructor
  · intro o fuel q
    unfold playFromQueue
    cases hq : q.isEmpty with
    | true =>
      refine ⟨q.length, ?_⟩
      simp [List.isEmpty_iff.mp hq]
    | false =>
      simp only [Bool.false_eq_true, if_false]
      rcases hpl : playLoop o fuel q 0 with ⟨played, rest, r2⟩
      obtain ⟨k, hk⟩ := playLoop_queue_drop o fuel q 0
      rw [hpl] at hk
      cases played with
      | none => exact ⟨k, hk⟩
      | some item => exact ⟨k, hk⟩
  · intro o fuel a b c ha hb hc
    obtain ⟨va, hva⟩ := ha
    obtain ⟨vb, hvb⟩ := hb
    obtain ⟨vc, hvc⟩ := hc
    refine ⟨?_, ?_, ?_, ?_, ?_, ?_⟩ <;>
      simp [playFromQueue, playLoop, hva, hvb, hvc]

/-- Claim C5 witness: on the all-streamable oracle the three sample
entries are popped strictly in insertion order. -/
theorem queue_fifo_spec_witness :
    (playFromQueue oAllOk 1 [itemA, itemB, itemC]).currentTrack =
      some (placeholderPlayMeta itemA) ∧
    (playFromQueue oAllOk 1 [itemA, itemB, itemC]).queue = [itemB, itemC] ∧
    (playFromQueue oAllOk 1 [itemB, itemC]).queue = [itemC] := by
  have h := queue_fifo_spec.2 oAllOk 1 itemA itemB itemC
    ⟨"trackA", rfl⟩ ⟨"trackB", rfl⟩ ⟨"trackC", rfl⟩
  exact ⟨h.1, h.2.1, h.2.2.2.1⟩

/-- Claim C1 counterexample: for a Spotify playlist link the dedup by
string equality on the first resolveTracks element never fires, because
resolveTracks returns raw catalog urls while the started track is a
YouTube search hit.  Concretely: the started track uTubeC1 is playable,
yet the background expansion appends uCatalogC1, which resolves at play
time to exactly the stream that was already started. -/
theorem background_dedup_cex :
    resolveFirstTrack oC1 uPlaylistC1 = some uTubeC1 ∧
    canonicalStream oC1 2 uTubeC1 = some uTubeC1 ∧
    uCatalogC1 ∈ backgroundExpansion oC1 uPlaylistC1 uTubeC1 ∧
    canonicalStream oC1 2 uCatalogC1 = some uTubeC1 := by
  refine ⟨by decide, by decide, by decide, by decide⟩

/-- Claim C1 amended: the dedup guarantees no re-enqueue of the started
track for single links (YouTube or generic) and for Spotify track links,
where the expansion appends nothing at all; for YouTube playlists the
expansion appends exactly the playlist tail (so the started video recurs
only if the playlist itself lists it again).  Spotify playlist/album
links are excluded: there the dedup never fires (see the
counterexample). -/
theorem background_dedup_amended (o : Oracle) (url first : String)
    (h1 : resolveFirstTrack o url = some first) :
    (ytPlaylistLink url = false → spotifyLink url = false →
      backgroundExpansion o url first = []) ∧
    (ytPlaylistLink url = false → ytLink url = true →
      backgroundExpansion o url first = []) ∧
    (ytPlaylistLink url = false → ytLink url = false → spotifyLink url = true →
      (o.spotify url).map (fun sp => sp.sptype) = some "track" →
      backgroundExpansion o url first = []) ∧
    (ytPlaylistLink url = true → ∃ vids, o.playlistVideos url = some vids ∧
      vids.head? = some first ∧ backgroundExpansion o url first = vids.tail) := by
  refine ⟨?_, ?_, ?_, ?_⟩
  · intro hpl hsp
    cases hyt : ytLink url with
    | true =>
      simp only [resolveFirstTrack, hpl, hyt, Bool.false_eq_true, if_false, if_true,
        Option.some.injEq] at h1
      subst h1
      simp [backgroundExpansion, resolveTracks, hpl, hyt]
    | false =>
      simp only [resolveFirstTrack, hpl, hyt, hsp, Bool.false_eq_true, if_false] at h1
      by_cases hu : url = ""
      · rw [if_pos hu] at h1; exact absurd h1 (by simp)
      · rw [if_neg hu] at h1
        simp only [Option.some.injEq] at h1
        subst h1
        simp [backgroundExpansion, resolveTracks, hpl, hyt, hsp]
  · intro hpl hyt
    simp only [resolveFirstTrack, hpl, hyt, Bool.false_eq_true, if_false, if_true,
      Option.some.injEq] at h1
    subst h1
    simp [backgroundExpansion, resolveTracks, hpl, hyt]
  · intro hpl hyt hsp htr
    cases hspo : o.spotify url with
    | none => simp [resolveFirstTrack, hpl, hyt, hsp, hspo] at h1
    | some sp =>
      rw [hspo] at htr
      simp only [Option.map_some', Option.some.injEq] at htr
      simp only [resolveFirstTrack, hpl, hyt, hsp, Bool.false_eq_true, if_false, if_true,
        hspo, htr] at h1
      simp [backgroundExpansion, resolveTracks, hpl, hyt, hsp, hspo, htr, h1]
  · intro hpl
    cases hpv : o.playlistVideos url with
    | none => simp [resolveFirstTrack, hpl, hpv] at h1
    | some vids =>
      simp only [resolveFirstTrack, hpl, if_true, hpv] at h1
      refine ⟨vids, rfl, h1, ?_⟩
      cases vids with
      | nil => simp at h1
      | cons v t =>
        simp only [List.head?_cons, Option.some.injEq] at h1
        subst h1
        simp [backgroundExpansion, resolveTracks, hpl, hpv]

/-- Claim C1 witness: a generic single link resolves to itself and its
background expansion appends nothing. -/
theorem background_dedup_amended_witness :
    backgroundExpansion oAllOk "mysong" "mysong" = [] := by
  exact (background_dedup_amended oAllOk "mysong" "mysong" (by decide)).1
    (by decide) (by decide)

/-- Claim C4 counterexample: in the unplayable-first-track branch the
resolved tracks are appended to the queue before the voice connection is
attempted, so on attachment timeout (hasConn and joinReady both false)
the connection failure is reported but the queue is not left as it was:
starting from an empty queue it now holds the resolved member. -/
theorem attach_timeout_cex :
    (processPlayRequest oC4 3 uPlaylistC4 "alice" false false true []).outcome =
      PlayOutcome.joinFail ∧
    (processPlayRequest oC4 3 uPlaylistC4 "alice" false false true []).queue =
      [{ url := uCatalogC4, requester := some "alice" }] ∧
    [({ url := uCatalogC4, requester := some "alice" } : QueueItem)] ≠ [] := by
  refine ⟨by decide, by decide, by decide⟩

/-- Claim C4 amended: when a new voice attachment must be created and does
not reach ready state in time, the playable-first-track branch rejects
with the propagated timeout and performs no synchronous queue mutation
(only the separately spawned background expansion may append later),
while the unplayable-first-track branch reports the connection-failure
message but has already appended the resolved tracks, which remain in
the queue. -/
theorem attach_timeout_amended (o : Oracle) (fuel : Nat) (url requester : String)
    (playerIdle : Bool) (q : List QueueItem) :
    (∀ first, resolveFirstTrack o url = some first →
      processPlayRequest o fuel url requester false false playerIdle q =
        { outcome := PlayOutcome.raisedJoinTimeout, queue := q
          expansionSpawned := true, advanceSpawned := false, started := none }) ∧
    ((resolveFirstTrack o url = none → (resolveTracks o url).length ≠ 0 →
      processPlayRequest o fuel url requester false false playerIdle q =
        { outcome := PlayOutcome.joinFail
          queue := q ++ (resolveTracks o url).map
            (fun u => { url := u, requester := some requester })
          expansionSpawned := false, advanceSpawned := false, started := none })) := by
  constructor
  · intro first h1
    simp [processPlayRequest, h1]
  · intro h1 hne
    simp [processPlayRequest, h1, hne]

/-- Claim C4 witness: a single-video link times out on attachment with the
queue untouched. -/
theorem attach_timeout_amended_witness :
    processPlayRequest oAllOk 1 "https://youtu.be/w1" "bob" false false true [] =
      { outcome := PlayOutcome.raisedJoinTimeout, queue := []
        expansionSpawned := true, advanceSpawned := false, started := none } :=
  (attach_timeout_amended oAllOk 1 "https://youtu.be/w1" "bob" true []).1
    "https://youtu.be/w1" (by decide)

/-! ## Preservation lemmas for the global-state operations -/

/-- updateEmbedToStopped never touches the players map. -/
theorem updateEmbedToStopped_players (g : String) (s : BotState) :
    (updateEmbedToStopped g s).players = s.players := by
  simp only [updateEmbedToStopped]
  split <;> rfl

/-- updateEmbedToStopped never touches the connection registry. -/
theorem updateEmbedToStopped_connections (g : String) (s : BotState) :
    (updateEmbedToStopped g s).connections = s.connections := by
  simp only [updateEmbedToStopped]
  split <;> rfl

/-- updateEmbedToStopped never touches the queues. -/
theorem updateEmbedToStopped_queues (g : String) (s : BotState) :
    (updateEmbedToStopped g s).queues = s.queues := by
  simp only [updateEmbedToStopped]
  split <;> rfl

/-- playFromQueueSyncPart never touches the players map. -/
theorem playFromQueueSyncPart_players (g : String) (s : BotState) :
    (playFromQueueSyncPart g s).players = s.players := by
  simp only [playFromQueueSyncPart]
  split
  · simp [armTimer, updateEmbedToStopped_players]
  · simp [armTimer, updateEmbedToStopped_players]
  · rfl

/-- playFromQueueSyncPart never touches the connection registry. -/
theorem playFromQueueSyncPart_connections (g : String) (s : BotState) :
    (playFromQueueSyncPart g s).connections = s.connections := by
  simp only [playFromQueueSyncPart]
  split
  · simp [armTimer, updateEmbedToStopped_connections]
  · simp [armTimer, updateEmbedToStopped_connections]
  · rfl

/-- The synchronous Idle-event cascade never touches the players map. -/
theorem onPlayerIdleSync_players (g : String) (s : BotState) :
    (onPlayerIdleSync g s).players = s.players := by
  simp only [onPlayerIdleSync]
  split
  · rfl
  · split <;> simp [armTimer, playFromQueueSyncPart_players]

/-- The synchronous Idle-event cascade never touches the connection
registry. -/
theorem onPlayerIdleSync_connections (g : String) (s : BotState) :
    (onPlayerIdleSync g s).connections = s.connections := by
  simp only [onPlayerIdleSync]
  split
  · rfl
  · split <;> simp [armTimer, playFromQueueSyncPart_connections]

/-- Stopping the player of a guild whose player exists leaves it with
status idle. -/
theorem playerStop_players_idle (g : String) (s : BotState) (p : PlayerSt)
    (hp : s.players g = some p) :
    (playerStop g s).players g = some { status := AudioStatus.idle } := by
  unfold playerStop
  rw [hp]
  change (if p.status = AudioStatus.idle then s
    else onPlayerIdleSync g (setPlayerStatus g AudioStatus.idle s)).players g =
    some { status := AudioStatus.idle }
  by_cases hst : p.status = AudioStatus.idle
  · rw [if_pos hst, hp]
    cases p
    simp_all
  · rw [if_neg hst, onPlayerIdleSync_players]
    simp [setPlayerStatus, upd]

/-- playerStop never touches the connection registry. -/
theorem playerStop_connections (g : String) (s : BotState) :
    (playerStop g s).connections = s.connections := by
  unfold playerStop
  split
  · rfl
  · split
    · rfl
    · rw [onPlayerIdleSync_connections]; rfl

/-- A guild state is unchanged by stopPlayback when no connection is
registered for it: the source returns false without touching anything. -/
theorem stopPlayback_noconn (g : String) (t : BotState) (h : t.connections g = none) :
    stopPlayback g t = (false, t) := by
  simp only [stopPlayback, h]

/-- Reflexivity of the per-guild agreement relation. -/
theorem agreesAt_refl (x : String) (s : BotState) : agreesAt x s s :=
  ⟨rfl, rfl, rfl, rfl, rfl, rfl⟩

/-- Transitivity of the per-guild agreement relation. -/
theorem agreesAt_trans (x : String) {s t u : BotState}
    (a : agreesAt x s t) (b : agreesAt x t u) : agreesAt x s u :=
  ⟨b.1.trans a.1, b.2.1.trans a.2.1, b.2.2.1.trans a.2.2.1, b.2.2.2.1.trans a.2.2.2.1,
    b.2.2.2.2.1.trans a.2.2.2.2.1, b.2.2.2.2.2.trans a.2.2.2.2.2⟩

/-- updateEmbedToStopped leaves every other guild untouched. -/
theorem updateEmbedToStopped_frame (g x : String) (hx : x ≠ g) (s : BotState) :
    agreesAt x s (updateEmbedToStopped g s) := by
  simp only [updateEmbedToStopped]
  split
  · exact ⟨rfl, by simp [upd, hx], rfl, rfl, rfl, rfl⟩
  · exact ⟨rfl, by simp [upd, hx], rfl, rfl, rfl, by simp [upd, hx]⟩

/-- armTimer leaves every other guild untouched. -/
theorem armTimer_frame (g x : String) (hx : x ≠ g) (s : BotState) :
    agreesAt x s (armTimer g s) :=
  ⟨rfl, rfl, rfl, rfl, by simp [armTimer, upd, hx], rfl⟩

/-- setPlayerStatus leaves every other guild untouched. -/
theorem setPlayerStatus_frame (g x : String) (hx : x ≠ g) (st : AudioStatus) (s : BotState) :
    agreesAt x s (setPlayerStatus g st s) :=
  ⟨rfl, rfl, by simp [setPlayerStatus, upd, hx], rfl, rfl, rfl⟩

/-- The synchronous part of playFromQueue leaves every other guild
untouched. -/
theorem playFromQueueSyncPart_frame (g x : String) (hx : x ≠ g) (s : BotState) :
    agreesAt x s (playFromQueueSyncPart g s) := by
  simp only [playFromQueueSyncPart]
  split
  · exact agreesAt_trans x (updateEmbedToStopped_frame g x hx s) (armTimer_frame g x hx _)
  · exact agreesAt_trans x (updateEmbedToStopped_frame g x hx s) (armTimer_frame g x hx _)
  · exact ⟨by simp [upd, hx], rfl, rfl, rfl, rfl, rfl⟩

/-- The synchronous Idle-event cascade leaves every other guild
untouched. -/
theorem onPlayerIdleSync_frame (g x : String) (hx : x ≠ g) (s : BotState) :
    agreesAt x s (onPlayerIdleSync g s) := by
  simp only [onPlayerIdleSync]
  split
  · exact agreesAt_refl x s
  · split
    · exact playFromQueueSyncPart_frame g x hx s
    · exact agreesAt_trans x (playFromQueueSyncPart_frame g x hx s) (armTimer_frame g x hx _)

/-- playerStop leaves every other guild untouched. -/
theorem playerStop_frame (g x : String) (hx : x ≠ g) (s : BotState) :
    agreesAt x s (playerStop g s) := by
  unfold playerStop
  split
  · exact agreesAt_refl x s
  · split
    · exact agreesAt_refl x s
    · exact agreesAt_trans x (setPlayerStatus_frame g x hx _ s) (onPlayerIdleSync_frame g x hx _)

/-- stopPlayback leaves every other guild untouched. -/
theorem stopPlayback_frame (g x : String) (hx : x ≠ g) (s : BotState) :
    agreesAt x s (stopPlayback g s).2 := by
  simp only [stopPlayback]
  split
  · have a1 : agreesAt x s { s with queues := upd s.queues g (some []) } :=
      ⟨by simp [upd, hx], rfl, rfl, rfl, rfl, rfl⟩
    have a2 := agreesAt_trans x a1
      (playerStop_frame g x hx { s with queues := upd s.queues g (some []) })
    have a3 := agreesAt_trans x a2
      (show agreesAt x (playerStop g { s with queues := upd s.queues g (some []) })
          { playerStop g { s with queues := upd s.queues g (some []) } with
            connections :=
              upd (playerStop g { s with queues := upd s.queues g (some []) }).connections g
                none } from
        ⟨rfl, rfl, rfl, by simp [upd, hx], rfl, rfl⟩)
    exact agreesAt_trans x a3 (updateEmbedToStopped_frame g x hx _)
  · exact agreesAt_refl x s

/-- Claim C6: a late metadata fetch result is applied only to the object
captured when the fetch started.  If the current track has changed since
(every track start allocates a fresh object id, distinct from every id
allocated before), delivering the late result leaves the new track
metadata object exactly as installed; delivering a result for the current
object does update it. -/
theorem late_metadata_isolated (h : MetaHeap) (md : TrackMetadata) (info : CachedTrackInfo)
    (oldId : Nat) (hold : oldId < h.nextId) :
    (startTrack h md).2 ≠ oldId ∧
    lookupMeta (applyFetchResult (startTrack h md).1 oldId info) (startTrack h md).2 =
      some md ∧
    lookupMeta (applyFetchResult (startTrack h md).1 (startTrack h md).2 info)
      (startTrack h md).2 = some (updateMeta md info) := by
  have hne : h.nextId ≠ oldId := Nat.ne_of_gt hold
  refine ⟨hne, ?_, ?_⟩
  · simp [startTrack, applyFetchResult, lookupMeta, List.find?, hne]
  · simp [startTrack, applyFetchResult, lookupMeta, List.find?]

/-- Claim C6 witness: on a one-object heap, starting a new track and then
delivering a fetch for the old object id leaves the new object at its
placeholder value. -/
theorem late_metadata_isolated_witness :
    lookupMeta (applyFetchResult (startTrack heap0 (placeholderPlayMeta itemB)).1 0 info0)
      (startTrack heap0 (placeholderPlayMeta itemB)).2 =
      some (placeholderPlayMeta itemB) :=
  (late_metadata_isolated heap0 (placeholderPlayMeta itemB) info0 0 (by decide)).2.1

/-- Claim C7: when the armed inactivity timer of an idle tenant fires, the
queue is cleared, the voice connection is destroyed (removed from the
registry), the current track is cleared, the player status remains Idle,
the timer is disarmed and the stopped view is rendered. -/
theorem inactivity_expiry_teardown (s : BotState) (g : String) (v : ViewSt)
    (_htimer : s.timers g = true)
    (hplayer : s.players g = some { status := AudioStatus.idle })
    (hview : s.views g = some v) :
    (fireInactivity g s).queues g = some [] ∧
    (fireInactivity g s).connections g = none ∧
    (fireInactivity g s).currentTracks g = none ∧
    (fireInactivity g s).players g = some { status := AudioStatus.idle } ∧
    (fireInactivity g s).timers g = false ∧
    (fireInactivity g s).views g = some { stopped := true } := by
  simp [fireInactivity, updateEmbedToStopped, upd, hview, hplayer]

/-- Claim C7 witness: the teardown on the concrete idle-and-armed state. -/
theorem inactivity_expiry_teardown_witness :
    (fireInactivity gA sIdleArmed).queues gA = some [] ∧
    (fireInactivity gA sIdleArmed).connections gA = none ∧
    (fireInactivity gA sIdleArmed).timers gA = false := by
  have h := inactivity_expiry_teardown sIdleArmed gA { stopped := false }
    (by decide) (by simp [sIdleArmed, gA]) (by simp [sIdleArmed, gA])
  exact ⟨h.1, h.2.1, h.2.2.2.2.1⟩

/-- Claim C10: a cache miss performs exactly one external lookup and
stores its result (including the degraded title-is-url fallback when the
lookup fails); any call finding the url cached returns the stored value
with the cache untouched and no external lookup, so a once-failed lookup
is never retried. -/
theorem cache_once (o : Oracle) (cache : String → Option CachedTrackInfo) (url : String)
    (hmiss : cache url = none) :
    (getCachedTrackInfo o cache url).2.2 = true ∧
    (getCachedTrackInfo o cache url).2.1 url = some (getCachedTrackInfo o cache url).1 ∧
    (fetchTrackInfo o url = none →
      (getCachedTrackInfo o cache url).1 =
        { title := url, author := "", thumbnail := none, duration := none }) ∧
    (∀ (c2 : String → Option CachedTrackInfo) (v : CachedTrackInfo), c2 url = some v →
      getCachedTrackInfo o c2 url = (v, c2, false)) ∧
    (getCachedTrackInfo o (getCachedTrackInfo o cache url).2.1 url =
      ((getCachedTrackInfo o cache url).1, (getCachedTrackInfo o cache url).2.1, false)) := by
  have hhit : ∀ (c2 : String → Option CachedTrackInfo) (v : CachedTrackInfo),
      c2 url = some v → getCachedTrackInfo o c2 url = (v, c2, false) := by
    intro c2 v hv
    unfold getCachedTrackInfo
    rw [hv]
  cases hf : fetchTrackInfo o url with
  | some info =>
    have hcall : getCachedTrackInfo o cache url = (info, upd cache url (some info), true) := by
      unfold getCachedTrackInfo
      rw [hmiss, hf]
    refine ⟨by rw [hcall], ?_, ?_, hhit, ?_⟩
    · rw [hcall]; simp [upd]
    · intro hnone; exact absurd hnone (by simp)
    · rw [hcall]; exact hhit _ info (by simp [upd])
  | none =>
    have hcall : getCachedTrackInfo o cache url =
        ({ title := url, author := "", thumbnail := none, duration := none },
          upd cache url (some { title := url, author := "", thumbnail := none, duration := none }),
          true) := by
      unfold getCachedTrackInfo
      rw [hmiss, hf]
    refine ⟨by rw [hcall], ?_, ?_, hhit, ?_⟩
    · rw [hcall]; simp [upd]
    · intro _; rw [hcall]
    · rw [hcall]; exact hhit _ _ (by simp [upd])

/-- Claim C10 witness: a url whose lookup fails is cached with the
degraded fallback on the first call and served from the cache afterwards. -/
theorem cache_once_witness :
    (getCachedTrackInfo oAllOk (fun _ => none) "zzz").2.2 = true ∧
    (getCachedTrackInfo oAllOk (fun _ => none) "zzz").1 =
      { title := "zzz", author := "", thumbnail := none, duration := none } := by
  refine ⟨(cache_once oAllOk (fun _ => none) "zzz" rfl).1,
          (cache_once oAllOk (fun _ => none) "zzz" rfl).2.2.1 (by decide)⟩

/-- Claim C8: stop is idempotent at the interface.  When a connection and
a player exist, the first stopPlayback succeeds and leaves the player
Idle; the second call finds no registered connection, reports failure
(false, no exception in the source) and performs no state change at all,
with the player still Idle. -/
theorem stop_idempotent (s : BotState) (g : String) (c : ConnSt) (p : PlayerSt)
    (hc : s.connections g = some c) (hp : s.players g = some p) :
    (stopPlayback g s).1 = true ∧
    (stopPlayback g s).2.players g = some { status := AudioStatus.idle } ∧
    (stopPlayback g (stopPlayback g s).2).1 = false ∧
    (stopPlayback g (stopPlayback g s).2).2 = (stopPlayback g s).2 ∧
    (stopPlayback g (stopPlayback g s).2).2.players g = some { status := AudioStatus.idle } := by
  have hstop : stopPlayback g s =
      (true,
        updateEmbedToStopped g
          { playerStop g { s with queues := upd s.queues g (some []) } with
            connections :=
              upd (playerStop g { s with queues := upd s.queues g (some []) }).connections g
                none }) := by
    simp only [stopPlayback, hc, hp]
  have h2players : (stopPlayback g s).2.players g = some { status := AudioStatus.idle } := by
    rw [hstop, updateEmbedToStopped_players]
    exact playerStop_players_idle g { s with queues := upd s.queues g (some []) } p hp
  have hconn2 : (stopPlayback g s).2.connections g = none := by
    rw [hstop, updateEmbedToStopped_connections]
    simp [upd]
  have hsecond : stopPlayback g (stopPlayback g s).2 = (false, (stopPlayback g s).2) :=
    stopPlayback_noconn g (stopPlayback g s).2 hconn2
  refine ⟨by rw [hstop], h2players, by rw [hsecond], by rw [hsecond], ?_⟩
  rw [hsecond]
  exact h2players

/-- Claim C8 witness: stopping the concrete playing state twice yields
success then reported failure, with the player Idle both times. -/
theorem stop_idempotent_witness :
    (stopPlayback gA sC).1 = true ∧
    (stopPlayback gA (stopPlayback gA sC).2).1 = false ∧
    (stopPlayback gA (stopPlayback gA sC).2).2 = (stopPlayback gA sC).2 := by
  have h := stop_idempotent sC gA { channelId := "vc1" } { status := AudioStatus.playing }
    (by simp [sC, gA]) (by simp [sC, gA])
  exact ⟨h.1, h.2.2.1, h.2.2.2.1⟩

/-- Claim C9: every core operation invoked for one guild (pause, resume,
skip, stop, the play-request queue append, clearqueue, and the inactivity
teardown) leaves the queue, current track, player, connection, timer and
view of every other guild unchanged. -/
theorem tenant_isolation (g g2 : String) (hne : g ≠ g2) (s : BotState)
    (items : List QueueItem) :
    agreesAt g2 s (pausePlayback g s).2 ∧
    agreesAt g2 s (resumePlayback g s).2 ∧
    agreesAt g2 s (skipTrack g s).2 ∧
    agreesAt g2 s (stopPlayback g s).2 ∧
    agreesAt g2 s (pushToQueue g items s) ∧
    agreesAt g2 s (clearQueue g s) ∧
    agreesAt g2 s (fireInactivity g s) := by
  have hx : g2 ≠ g := Ne.symm hne
  refine ⟨?_, ?_, ?_, stopPlayback_frame g g2 hx s, ?_, ?_, ?_⟩
  · unfold pausePlayback
    split
    · split
      · exact ⟨rfl, rfl, by simp [upd, hx], rfl, rfl, rfl⟩
      · exact agreesAt_refl g2 s
    · exact agreesAt_refl g2 s
  · unfold resumePlayback
    split
    · split
      · exact ⟨rfl, rfl, by simp [upd, hx], rfl, rfl, rfl⟩
      · exact agreesAt_refl g2 s
    · exact agreesAt_refl g2 s
  · unfold skipTrack
    split
    · split
      · exact agreesAt_refl g2 s
      · exact playerStop_frame g g2 hx s
    · exact agreesAt_refl g2 s
  · exact ⟨by simp [pushToQueue, upd, hx], rfl, rfl, rfl, rfl, rfl⟩
  · exact ⟨by simp [clearQueue, upd, hx], rfl, rfl, rfl, rfl, rfl⟩
  · have b1 : agreesAt g2 s { s with connections := upd s.connections g none } :=
      ⟨rfl, rfl, rfl, by simp [upd, hx], rfl, rfl⟩
    have b2 := agreesAt_trans g2 b1
      (show agreesAt g2 { s with connections := upd s.connections g none }
          { s with connections := upd s.connections g none,
                   queues := upd s.queues g (some []) } from
        ⟨by simp [upd, hx], rfl, rfl, rfl, rfl, rfl⟩)
    have b3 := agreesAt_trans g2 b2
      (show agreesAt g2
          { s with connections := upd s.connections g none,
                   queues := upd s.queues g (some []) }
          { s with connections := upd s.connections g none,
                   queues := upd s.queues g (some []),
                   timers := upd s.timers g false } from
        ⟨rfl, rfl, rfl, rfl, by simp [upd, hx], rfl⟩)
    exact agreesAt_trans g2 b3 (updateEmbedToStopped_frame g g2 hx _)

/-- Claim C9 witness: stopping guild gA leaves guild gB untouched in the
concrete state. -/
theorem tenant_isolation_witness : agreesAt gB sC (stopPlayback gA sC).2 :=
  (tenant_isolation gA gB (by decide) sC [itemB]).2.2.2.1

end DisTrack
